import Mathlib

/-!
Shallow embedding of the payment-orchestrator core (proxy service, circuit
breaker, webhook normalizers, delivery engine, worker batch handler).

Modelling conventions
- JavaScript numbers appearing in payloads are modelled as `Rat` (no float
  arithmetic is exercised by the embedded code paths beyond exact division
  by 100).
- `undefined`/`null`/absent string fields are modelled as `Option String`;
  the JS falsy test on a string field (`!x`) is `falsyStr` (absent or `""`).
- External nondeterminism (DynamoDB contents, the HTTP outcome of each
  provider / delivery call, `Date.now()`, generated orchestration ids) is
  passed in explicitly as parameters or as an explicit store value.
- DynamoDB tables are association lists keyed by the primary key the code
  builds; `PutCommand` without a condition expression replaces the item for
  the key (`putIdem`), `UpdateCommand` with `if_not_exists` increments
  (`incrementFailureCount`), `GetCommand` is `lookup`.
- Thrown JS errors are `Except` errors; the error classes of
  `shared/utils/errors.js` are the constructors of `JsError`.
-/

/-- Error classes from shared/utils/errors.js, as far as the embedded code
paths construct them. -/
inductive ErrCode where
  | ECONNREFUSED
  | ETIMEDOUT
  | ECONNABORTED
  | other (s : String)
deriving DecidableEq

/-- Shape of an axios error as consumed by worker/service.js:
`error.code` and `error.response?.status`. -/
structure AxiosError where
  code : Option ErrCode := none
  responseStatus : Option Nat := none
deriving DecidableEq

/-- Thrown error values of the embedded code. -/
inductive JsError where
  | validationError (msg : String)
  | gatewayError (msg : String)
  | jsonError (msg : String)
  | deliveryError (lastError : AxiosError)
deriving DecidableEq

/-- Timestamps as the code renders them: either a string already in hand, or
the value `new Date(ms).toISOString()` of an epoch-millisecond number
(`none` encodes a NaN input, kept injectively rather than re-implementing the
calendar conversion, which no claim touches). -/
inductive Timestamp where
  | str (s : String)
  | ofEpochMs (ms : Option Int)
deriving DecidableEq

/-- JS falsy test specialised to an optional string field: `!x` is true when
the field is absent (`undefined`/`null`) or the empty string. -/
def falsyStr : Option String → Bool
  | none => true
  | some s => s = ""

/-- JS `a || b` on optional strings: keep `a` when truthy, else `b`. -/
def jsOrElse (a b : Option String) : Option String :=
  match a with
  | some s => if s = "" then b else some s
  | none => b

/-- JS `a || d` producing a definite string. -/
def jsOrElseD (a : Option String) (d : String) : String :=
  match a with
  | some s => if s = "" then d else s
  | none => d

/-- Minimal JS value universe for the payment payload fields checked by
shared/utils/validators.js. Nested contents of objects/arrays are never
inspected by those validators, so they carry no payload here. -/
inductive JsVal where
  | null
  | undefined
  | bool (b : Bool)
  | num (q : Rat)
  | str (s : String)
  | arr
  | obj
deriving DecidableEq

/-- JS truthiness on the modelled values. -/
def JsVal.truthy : JsVal → Bool
  | .null => false
  | .undefined => false
  | .bool b => b
  | .num q => q ≠ 0
  | .str s => s ≠ ""
  | .arr => true
  | .obj => true

namespace Validators

/-- validators.required: rejects null, undefined and the empty string. -/
def required (v : JsVal) (fieldName : String) : Except JsError JsVal :=
  if v = .null ∨ v = .undefined ∨ v = .str "" then
    .error (.validationError (fieldName ++ " is required"))
  else .ok v

/-- validators.isString. -/
def isString (v : JsVal) (fieldName : String) : Except JsError JsVal :=
  match v with
  | .str _ => .ok v
  | _ => .error (.validationError (fieldName ++ " must be a string"))

/-- validators.isObject: `typeof value === 'object'`, not null, not an
array. -/
def isObject (v : JsVal) (fieldName : String) : Except JsError JsVal :=
  match v with
  | .obj => .ok v
  | _ => .error (.validationError (fieldName ++ " must be an object"))

/-- validators.isNumber (a parsed-JSON number is never NaN). -/
def isNumber (v : JsVal) (fieldName : String) : Except JsError JsVal :=
  match v with
  | .num _ => .ok v
  | _ => .error (.validationError (fieldName ++ " must be a number"))

/-- validators.inRange (inclusive bounds). -/
def inRange (v : JsVal) (lo hi : Rat) (fieldName : String) : Except JsError JsVal :=
  match isNumber v fieldName with
  | .error e => .error e
  | .ok _ =>
    match v with
    | .num q =>
      if q < lo ∨ q > hi then
        .error (.validationError (fieldName ++ " is out of range"))
      else .ok v
    | _ => .error (.validationError (fieldName ++ " must be a number"))

/-- validators.isOneOf via `Array.includes`. -/
def isOneOf (v : JsVal) (allowed : List JsVal) (fieldName : String) :
    Except JsError JsVal :=
  if allowed.contains v then .ok v
  else .error (.validationError (fieldName ++ " must be one of the allowed values"))

/-- validators.minLength. -/
def minLength (v : JsVal) (n : Nat) (fieldName : String) : Except JsError JsVal :=
  match isString v fieldName with
  | .error e => .error e
  | .ok _ =>
    match v with
    | .str s =>
      if s.length < n then
        .error (.validationError (fieldName ++ " is too short"))
      else .ok v
    | _ => .error (.validationError (fieldName ++ " must be a string"))

/-- validators.maxLength. -/
def maxLength (v : JsVal) (n : Nat) (fieldName : String) : Except JsError JsVal :=
  match isString v fieldName with
  | .error e => .error e
  | .ok _ =>
    match v with
    | .str s =>
      if s.length > n then
        .error (.validationError (fieldName ++ " is too long"))
      else .ok v
    | _ => .error (.validationError (fieldName ++ " must be a string"))

end Validators

/-- shared/constants/payment-gateways.js: the valid gateway names. -/
def VALID_GATEWAYS : List String := ["efi", "stripe"]

/-- isValidGateway from shared/constants/payment-gateways.js. -/
def isValidGateway (gateway : String) : Bool :=
  VALID_GATEWAYS.contains gateway

namespace CircuitBreaker

/-- FAILURE_THRESHOLD from shared/utils/circuit-breaker.js. -/
def FAILURE_THRESHOLD : Nat := 5

/-- MONITOR_WINDOW_SECONDS from shared/utils/circuit-breaker.js. -/
def MONITOR_WINDOW_SECONDS : Nat := 300

/-- TTL_SECONDS from shared/utils/circuit-breaker.js. -/
def TTL_SECONDS : Nat := 3600

/-- calculateWindowKey: `Math.floor(timestamp / MONITOR_WINDOW_SECONDS)`. -/
def calculateWindowKey (timestamp : Nat) : Nat :=
  timestamp / MONITOR_WINDOW_SECONDS

/-- Metrics-table key. createMetricsKey builds
`pk = GW#<gateway>`, `sk = WINDOW#<windowKey>`; the `sk` string determines
and is determined by the window number, so the key is kept as the pair
(pk string, window number). -/
structure MetricsKey where
  pk : String
  windowKey : Nat
deriving DecidableEq

/-- createMetricsKey from shared/utils/circuit-breaker.js. -/
def createMetricsKey (gatewayName : String) (windowKey : Nat) : MetricsKey :=
  ⟨"GW#" ++ gatewayName, windowKey⟩

/-- One item of the metrics table: the failure counter and its TTL
attribute. -/
structure MetricsItem where
  failures : Nat
  ttl : Nat
deriving DecidableEq

/-- The metrics table. -/
abbrev MetricsStore := List (MetricsKey × MetricsItem)

/-- GetCommand on the metrics table. -/
def lookupMetrics : MetricsStore → MetricsKey → Option MetricsItem
  | [], _ => none
  | (k2, v) :: rest, k => if k2 = k then some v else lookupMetrics rest k

/-- PutCommand/UpdateCommand result on the metrics table: replace or insert
the item at the key. -/
def setMetrics : MetricsStore → MetricsKey → MetricsItem → MetricsStore
  | [], k, v => [(k, v)]
  | (k2, v2) :: rest, k, v =>
    if k2 = k then (k, v) :: rest else (k2, v2) :: setMetrics rest k v

/-- Current failure counter for a key (`result.Item?.failures || 0`). -/
def failuresAt (store : MetricsStore) (k : MetricsKey) : Nat :=
  match lookupMetrics store k with
  | some item => item.failures
  | none => 0

/-- incrementFailureCount: UpdateCommand
`SET failures = if_not_exists(failures, 0) + 1, ttl = timestamp + TTL`. -/
def incrementFailureCount (store : MetricsStore) (gatewayName : String)
    (windowKey : Nat) (timestamp : Nat) : MetricsStore :=
  let k := createMetricsKey gatewayName windowKey
  setMetrics store k ⟨failuresAt store k + 1, timestamp + TTL_SECONDS⟩

/-- getFailureCount: reads the counter for the window of the given current
time (the JS function recomputes the window key from `Date.now()`). -/
def getFailureCount (store : MetricsStore) (gatewayName : String)
    (timestamp : Nat) : Nat :=
  failuresAt store (createMetricsKey gatewayName (calculateWindowKey timestamp))

/-- recordFailure from shared/utils/circuit-breaker.js, at an explicit
current time: increment the counter of the current window, then report
whether the count has reached FAILURE_THRESHOLD. -/
def recordFailure (store : MetricsStore) (gatewayName : String)
    (timestamp : Nat) : MetricsStore × Bool :=
  let windowKey := calculateWindowKey timestamp
  let store2 := incrementFailureCount store gatewayName windowKey timestamp
  let failureCount := getFailureCount store2 gatewayName timestamp
  (store2, decide (failureCount ≥ FAILURE_THRESHOLD))

/-- Sequential trace of recordFailure calls at the given timestamps,
returning the final store and the list of returned booleans. -/
def runFailures (store : MetricsStore) (gatewayName : String) :
    List Nat → MetricsStore × List Bool
  | [] => (store, [])
  | t :: ts =>
    let step := recordFailure store gatewayName t
    let rest := runFailures step.1 gatewayName ts
    (rest.1, step.2 :: rest.2)

end CircuitBreaker

namespace Webhooks

/-- One entry of an EFI (PIX) webhook's `pix` array, with the fields the
worker reads. -/
structure PixRecord where
  txid : Option String := none
  valor : Option Rat := none
  horario : Option String := none
  clientId : Option String := none
deriving DecidableEq

/-- The `data.object` of a Stripe webhook, with the fields the worker
reads. -/
structure StripeObject where
  id : Option String := none
  status : Option String := none
  amount : Option Int := none
  currency : Option String := none
  created : Option Int := none
  metadataClientId : Option String := none
  description : Option String := none
deriving DecidableEq

/-- The `data` of a Stripe webhook. -/
structure StripeData where
  object : Option StripeObject := none
deriving DecidableEq

/-- An inbound webhook payload, covering the fields either provider branch
reads (a given provider's payload simply leaves the other's fields
absent). -/
structure WebhookPayload where
  pix : Option (List PixRecord) := none
  type : Option String := none
  data : Option StripeData := none
  id : Option String := none
  clientId : Option String := none
deriving DecidableEq

/-- Gateway-specific part preserved in the normalized webhook metadata. -/
inductive WebhookMeta where
  | pix (r : PixRecord)
  | stripe (o : Option StripeObject)
deriving DecidableEq

/-- NormalizedWebhook shape produced by
worker/handlers/webhook-normalizer.js. -/
structure NormalizedWebhook where
  event : String
  gateway : String
  gateway_event_id : Option String
  payment_id : Option String
  status : String
  amount : Option Rat
  currency : String
  timestamp : Timestamp
  metadata : WebhookMeta
deriving DecidableEq

/-- validateEFIPayload: requires a non-empty `pix` array whose first record
has a truthy `txid` and a defined `valor`. -/
def validateEFIPayload (payload : WebhookPayload) : Except JsError Unit :=
  match payload.pix with
  | none => .error (.validationError "Invalid EFI webhook: missing pix array")
  | some [] => .error (.validationError "Invalid EFI webhook: missing pix array")
  | some (pixRecord :: _) =>
    if falsyStr pixRecord.txid || pixRecord.valor = none then
      .error (.validationError "Invalid EFI webhook: missing required fields")
    else .ok ()

/-- mapEFIStatus: `pending` without an `horario`, `completed` with one. -/
def mapEFIStatus (pixRecord : PixRecord) : String :=
  if falsyStr pixRecord.horario then "pending" else "completed"

/-- normalizeEFIWebhook; `nowIso` stands for `new Date().toISOString()`. -/
def normalizeEFIWebhook (payload : WebhookPayload) (nowIso : String) :
    Except JsError NormalizedWebhook :=
  match validateEFIPayload payload with
  | .error e => .error e
  | .ok _ =>
    match payload.pix with
    | some (pixRecord :: _) =>
      .ok { event := "payment.updated"
            gateway := "efi"
            gateway_event_id := pixRecord.txid
            payment_id := pixRecord.txid
            status := mapEFIStatus pixRecord
            amount := pixRecord.valor
            currency := "BRL"
            timestamp := .str (jsOrElseD pixRecord.horario nowIso)
            metadata := .pix pixRecord }
    | _ => .error (.validationError "Invalid EFI webhook: missing pix array")

/-- validateStripePayload: requires a truthy `type` and a `data.object`. -/
def validateStripePayload (payload : WebhookPayload) : Except JsError Unit :=
  if falsyStr payload.type || (payload.data.bind (·.object)) = none then
    .error (.validationError "Invalid Stripe webhook: missing required fields")
  else .ok ()

/-- mapStripeStatus: the closed status table, unmapped values give
`unknown`. -/
def mapStripeStatus (stripeStatus : String) : String :=
  if stripeStatus = "succeeded" then "completed"
  else if stripeStatus = "processing" then "processing"
  else if stripeStatus = "requires_action" then "pending"
  else if stripeStatus = "requires_capture" then "authorized"
  else if stripeStatus = "requires_confirmation" then "pending"
  else if stripeStatus = "requires_payment_method" then "pending"
  else if stripeStatus = "canceled" then "canceled"
  else "unknown"

/-- mapStripeEventType: the closed event table, with the
`payment.<prefix>` fallback. -/
def mapStripeEventType (stripeEventType : String) : String :=
  if stripeEventType = "payment_intent.succeeded" then "payment.completed"
  else if stripeEventType = "payment_intent.payment_failed" then "payment.failed"
  else if stripeEventType = "payment_intent.canceled" then "payment.canceled"
  else if stripeEventType = "charge.captured" then "payment.captured"
  else if stripeEventType = "charge.refunded" then "payment.refunded"
  else "payment." ++ ((stripeEventType.splitOn ".").headD "")

/-- normalizeStripeWebhook. The JS reads `payload.data?.object` after
validation guaranteed it exists; amount 0 is falsy and maps to null. -/
def normalizeStripeWebhook (payload : WebhookPayload) :
    Except JsError NormalizedWebhook :=
  match validateStripePayload payload with
  | .error e => .error e
  | .ok _ =>
    let stripeObject := (payload.data.bind (·.object)).getD {}
    .ok { event := mapStripeEventType (payload.type.getD "")
          gateway := "stripe"
          gateway_event_id := payload.id
          payment_id := stripeObject.id
          status := mapStripeStatus (stripeObject.status.getD "")
          amount := match stripeObject.amount with
            | some a => if a = 0 then none else some ((a : Rat) / 100)
            | none => none
          currency := jsOrElseD (stripeObject.currency.map String.toUpper) "USD"
          timestamp := .ofEpochMs (stripeObject.created.map (· * 1000))
          metadata := .stripe (payload.data.bind (·.object)) }

/-- normalizeWebhookFromGateway: dispatch on the gateway id, unknown ids are
a ValidationError. -/
def normalizeWebhookFromGateway (gateway : String) (payload : WebhookPayload)
    (nowIso : String) : Except JsError NormalizedWebhook :=
  if gateway = "efi" then normalizeEFIWebhook payload nowIso
  else if gateway = "stripe" then normalizeStripeWebhook payload
  else .error (.validationError ("Unknown gateway: " ++ gateway))

end Webhooks

namespace ResponseNorm

/-- The `pix` object of an EFI payment-creation response. -/
structure EFIPix where
  qrcode : Option String := none
  copiaecola : Option String := none
  expiresAt : Option String := none
deriving DecidableEq

/-- A provider-native payment-creation response, covering the fields either
provider branch of proxy/handlers/response-normalizer.js reads. -/
structure GatewayResponse where
  id : Option String := none
  status : Option String := none
  pix : Option EFIPix := none
  amount : Option Int := none
  currency : Option String := none
  created : Option Int := none
  client_secret : Option String := none
deriving DecidableEq

/-- The provider-specific `data` field of a normalized response. -/
inductive RespData where
  | efi (qr_code copy_paste expires_at : Option String)
  | stripe (amount_cents : Option Int) (currency : Option String)
      (client_secret : Option String)
deriving DecidableEq

/-- NormalizedPaymentResponse shape produced by
proxy/handlers/response-normalizer.js. -/
structure NormalizedResponse where
  id : String
  gateway : String
  gateway_id : Option String
  status : String
  payment_type : String
  created_at : Timestamp
  data : RespData
deriving DecidableEq

/-- validateEFIResponse: requires a truthy id and a pix object with a truthy
qrcode. -/
def validateEFIResponse (response : GatewayResponse) : Except JsError Unit :=
  if falsyStr response.id then
    .error (.validationError "EFI response missing id")
  else if response.pix = none || falsyStr (response.pix.bind (·.qrcode)) then
    .error (.validationError "EFI response missing PIX QR code")
  else .ok ()

/-- validateStripeResponse: requires a truthy id and status. -/
def validateStripeResponse (response : GatewayResponse) : Except JsError Unit :=
  if falsyStr response.id then
    .error (.validationError "Stripe response missing id")
  else if falsyStr response.status then
    .error (.validationError "Stripe response missing status")
  else .ok ()

/-- normalizeStripeStatus: the closed status table of the response
normalizer, unmapped values give `unknown`. -/
def normalizeStripeStatus (stripeStatus : String) : String :=
  if stripeStatus = "requires_payment_method" then "pending"
  else if stripeStatus = "requires_confirmation" then "pending"
  else if stripeStatus = "requires_action" then "pending"
  else if stripeStatus = "processing" then "processing"
  else if stripeStatus = "requires_capture" then "authorized"
  else if stripeStatus = "canceled" then "canceled"
  else if stripeStatus = "succeeded" then "completed"
  else "unknown"

/-- normalizeEFIResponse. `orchId` stands for the generated
`generateOrchestrationId()` value and `nowIso` for
`new Date().toISOString()`. -/
def normalizeEFIResponse (efiResponse : GatewayResponse) (orchId nowIso : String) :
    Except JsError NormalizedResponse :=
  match validateEFIResponse efiResponse with
  | .error e => .error e
  | .ok _ =>
    .ok { id := orchId
          gateway := "efi"
          gateway_id := efiResponse.id
          status := "pending"
          payment_type := "pix"
          created_at := .str nowIso
          data := .efi (efiResponse.pix.bind (·.qrcode))
            (efiResponse.pix.bind (·.copiaecola))
            (efiResponse.pix.bind (·.expiresAt)) }

/-- normalizeStripeResponse. -/
def normalizeStripeResponse (stripeResponse : GatewayResponse)
    (orchId : String) : Except JsError NormalizedResponse :=
  match validateStripeResponse stripeResponse with
  | .error e => .error e
  | .ok _ =>
    .ok { id := orchId
          gateway := "stripe"
          gateway_id := stripeResponse.id
          status := normalizeStripeStatus (stripeResponse.status.getD "")
          payment_type := "card"
          created_at := .ofEpochMs (stripeResponse.created.map (· * 1000))
          data := .stripe stripeResponse.amount
            (stripeResponse.currency.map String.toUpper)
            stripeResponse.client_secret }

/-- normalizeGatewayResponse: dispatch on the gateway id, unknown ids are a
ValidationError. -/
def normalizeGatewayResponse (gateway : String) (response : GatewayResponse)
    (orchId nowIso : String) : Except JsError NormalizedResponse :=
  if gateway = "efi" then normalizeEFIResponse response orchId nowIso
  else if gateway = "stripe" then normalizeStripeResponse response orchId
  else .error (.validationError ("Unknown gateway: " ++ gateway))

end ResponseNorm

namespace Proxy

/-- The fields of a parsed payment payload object that
proxy/validators/payment-validator.js inspects. -/
structure PaymentPayload where
  amount : JsVal := .undefined
  currency : JsVal := .undefined
  description : JsVal := .undefined
  customerId : JsVal := .undefined
  metadata : JsVal := .undefined
deriving DecidableEq

/-- The result of JSON.parse on a request body: either not an object, or an
object whose relevant fields are captured. -/
inductive ParsedBody where
  | nonObject (v : JsVal)
  | object (p : PaymentPayload)
deriving DecidableEq

/-- validatePaymentRequest from proxy/validators/payment-validator.js, run
in source order. -/
def validatePaymentRequest (body : ParsedBody) : Except JsError Unit := do
  match body with
  | .nonObject v =>
    let _ ← Validators.isObject v "Payment payload"
    .ok ()
  | .object payload => do
    let _ ← Validators.required payload.amount "amount"
    let _ ← Validators.required payload.currency "currency"
    let _ ← Validators.required payload.description "description"
    let _ ← Validators.isNumber payload.amount "amount"
    let _ ← Validators.inRange payload.amount (mkRat 1 100) (mkRat 99999999 100) "amount"
    let _ ← Validators.isString payload.currency "currency"
    let _ ← Validators.isOneOf payload.currency
      [.str "BRL", .str "USD", .str "EUR"] "currency"
    let _ ← Validators.isString payload.description "description"
    let _ ← Validators.minLength payload.description 1 "description"
    let _ ← Validators.maxLength payload.description 255 "description"
    let _ ← if payload.customerId.truthy then
        Validators.isString payload.customerId "customerId"
      else .ok payload.customerId
    let _ ← if payload.metadata.truthy then
        Validators.isObject payload.metadata "metadata"
      else .ok payload.metadata
    .ok ()

/-- The raw request body field: absent/empty (required fails), present but
not valid JSON (JSON.parse throws), or parsed. Both failure forms surface as
the same ValidationError in extractAndValidateInput. -/
inductive BodyField where
  | missing
  | malformed
  | parsed (b : ParsedBody)
deriving DecidableEq

/-- The authorizer context injected by the Lambda authorizer. -/
structure AuthorizerCtx where
  tenantId : Option String := none
  activeGateway : Option String := none
deriving DecidableEq

/-- An API-Gateway event, reduced to the fields proxy/service.js reads. -/
structure ProxyEvent where
  headerIdemKeyLower : Option String := none
  headerIdemKeyUpper : Option String := none
  authorizer : Option AuthorizerCtx := none
  body : BodyField := .missing
deriving DecidableEq

/-- The validated inputs extractAndValidateInput returns. -/
structure ExtractedInput where
  idempotencyKey : String
  tenantId : String
  gateway : String
  payload : ParsedBody
deriving DecidableEq

/-- validators.required specialised to the string-or-absent values it is
applied to in extractAndValidateInput. -/
def requiredStr (v : Option String) (fieldName : String) : Except JsError String :=
  match v with
  | some s =>
    if s = "" then .error (.validationError (fieldName ++ " is required"))
    else .ok s
  | none => .error (.validationError (fieldName ++ " is required"))

/-- extractAndValidateInput from proxy/service.js: idempotency-key header
(lower- or upper-case), authorizer context, tenant id, active gateway name
and its validity, then the JSON body. -/
def extractAndValidateInput (event : ProxyEvent) : Except JsError ExtractedInput := do
  let idempotencyKey ← requiredStr
    (jsOrElse event.headerIdemKeyLower event.headerIdemKeyUpper)
    "Idempotency-Key header"
  match event.authorizer with
  | none => .error (.validationError "Authorization context missing")
  | some authorizer => do
    let tenantId ← requiredStr authorizer.tenantId "Tenant ID"
    let gateway ← requiredStr authorizer.activeGateway "Active Gateway"
    if isValidGateway gateway = false then
      .error (.validationError ("Invalid gateway: " ++ gateway))
    else
      match event.body with
      | .missing => .error (.validationError "Invalid JSON in request body")
      | .malformed => .error (.validationError "Invalid JSON in request body")
      | .parsed payload => .ok ⟨idempotencyKey, tenantId, gateway, payload⟩

/-- IDEMPOTENCY_TTL_SECONDS from proxy/service.js. -/
def IDEMPOTENCY_TTL_SECONDS : Nat := 24 * 60 * 60

/-- Idempotency-table key, as built by createIdempotencyKey. -/
structure IdemKey where
  pk : String
  sk : String
deriving DecidableEq

/-- createIdempotencyKey from proxy/service.js. -/
def createIdempotencyKey (tenantId idempotencyKey : String) : IdemKey :=
  ⟨"TENANT#" ++ tenantId, "IDEM#" ++ idempotencyKey⟩

/-- One idempotency record: the serialized response string and the TTL
attribute. -/
structure IdemItem where
  response : String
  ttl : Nat
deriving DecidableEq

/-- The idempotency table. -/
abbrev IdemStore := List (IdemKey × IdemItem)

/-- GetCommand on the idempotency table. -/
def lookupIdem : IdemStore → IdemKey → Option IdemItem
  | [], _ => none
  | (k2, v) :: rest, k => if k2 = k then some v else lookupIdem rest k

/-- PutCommand on the idempotency table: an unconditional write (no
condition expression in the source), replacing any existing item at the
key. -/
def putIdem : IdemStore → IdemKey → IdemItem → IdemStore
  | [], k, v => [(k, v)]
  | (k2, v2) :: rest, k, v =>
    if k2 = k then (k, v) :: rest else (k2, v2) :: putIdem rest k v

/-- Simplified JSON rendering of an optional string field. The printer
stands for JSON.stringify; the claims only need it to be a deterministic
function of the normalized response value, because
`JSON.stringify(JSON.parse(s))` is the identity on strings JSON.stringify
produced, so the cached path returns the stored bytes unchanged. -/
def jopt : Option String → String
  | some s => "\"" ++ s ++ "\""
  | none => "null"

/-- Simplified JSON rendering of a timestamp value. -/
def jts : Timestamp → String
  | .str s => "\"" ++ s ++ "\""
  | .ofEpochMs (some n) => "\"epoch-ms:" ++ toString n ++ "\""
  | .ofEpochMs none => "\"invalid-date\""

/-- Simplified JSON rendering of the provider-specific data field. -/
def jdata : ResponseNorm.RespData → String
  | .efi qr cp exp =>
    "\x7b\"qr_code\":" ++ jopt qr ++ ",\"copy_paste\":" ++ jopt cp ++
      ",\"expires_at\":" ++ jopt exp ++ "\x7d"
  | .stripe cents cur secret =>
    "\x7b\"amount_cents\":" ++
      (match cents with | some n => toString n | none => "null") ++
      ",\"currency\":" ++ jopt cur ++ ",\"client_secret\":" ++ jopt secret ++ "\x7d"

/-- JSON.stringify of a normalized response (simplified printer, see
`jopt`). -/
def stringifyResponse (r : ResponseNorm.NormalizedResponse) : String :=
  "\x7b\"id\":\"" ++ r.id ++ "\",\"gateway\":\"" ++ r.gateway ++
    "\",\"gateway_id\":" ++ jopt r.gateway_id ++ ",\"status\":\"" ++ r.status ++
    "\",\"payment_type\":\"" ++ r.payment_type ++ "\",\"created_at\":" ++
    jts r.created_at ++ ",\"data\":" ++ jdata r.data ++ "\x7d"

/-- checkIdempotency from proxy/service.js: GetCommand on the key; a record
with a truthy `response` attribute is returned (the JS parses the stored
JSON and the caller re-serializes it, which round-trips to the stored
string, so the cached value is modelled by that string). -/
def checkIdempotency (store : IdemStore) (tenantId idempotencyKey : String) :
    Option String :=
  match lookupIdem store (createIdempotencyKey tenantId idempotencyKey) with
  | some item => if item.response = "" then none else some item.response
  | none => none

/-- saveIdempotencyRecord from proxy/service.js: unconditional PutCommand of
the serialized response with a 24h TTL. -/
def saveIdempotencyRecord (store : IdemStore) (tenantId idempotencyKey : String)
    (response : ResponseNorm.NormalizedResponse) (nowTs : Nat) : IdemStore :=
  putIdem store (createIdempotencyKey tenantId idempotencyKey)
    ⟨stringifyResponse response, nowTs + IDEMPOTENCY_TTL_SECONDS⟩

/-- Effect counters of one processPayment run: reads/writes of the
idempotency table and provider-adapter invocations. -/
structure Effects where
  storeReads : Nat := 0
  storeWrites : Nat := 0
  providerCalls : Nat := 0
deriving DecidableEq

/-- All external state the proxy can touch: the idempotency table and the
circuit-breaker metrics table. -/
structure ProxyState where
  idem : IdemStore
  metrics : CircuitBreaker.MetricsStore
deriving DecidableEq

/-- The HTTP response processPayment resolves with. -/
structure HttpResponse where
  statusCode : Nat
  body : String
deriving DecidableEq

/-- Result of one processPayment run: final state, effect counters, and the
outcome (resolved response or thrown error). -/
structure RunResult where
  state : ProxyState
  effects : Effects
  outcome : Except JsError HttpResponse

/-- processPayment from proxy/service.js, in source order: extract/validate
input, check idempotency, validate the payment payload, call the provider
(its outcome is the external parameter `gatewayOutcome`), normalize, save
the idempotency record, respond. `orchId`/`nowIso`/`nowTs` stand for the
generated orchestration id, `new Date().toISOString()` and
`Date.now()/1000`. -/
def processPayment (st : ProxyState) (event : ProxyEvent)
    (gatewayOutcome : Except JsError ResponseNorm.GatewayResponse)
    (orchId nowIso : String) (nowTs : Nat) : RunResult :=
  match extractAndValidateInput event with
  | .error e => ⟨st, ⟨0, 0, 0⟩, .error e⟩
  | .ok info =>
    match checkIdempotency st.idem info.tenantId info.idempotencyKey with
    | some cached => ⟨st, ⟨1, 0, 0⟩, .ok ⟨200, cached⟩⟩
    | none =>
      match validatePaymentRequest info.payload with
      | .error e => ⟨st, ⟨1, 0, 0⟩, .error e⟩
      | .ok _ =>
        match gatewayOutcome with
        | .error e => ⟨st, ⟨1, 0, 1⟩, .error e⟩
        | .ok gatewayResponse =>
          match ResponseNorm.normalizeGatewayResponse info.gateway
              gatewayResponse orchId nowIso with
          | .error e => ⟨st, ⟨1, 0, 1⟩, .error e⟩
          | .ok normalized =>
            ⟨⟨saveIdempotencyRecord st.idem info.tenantId info.idempotencyKey
                normalized nowTs, st.metrics⟩,
              ⟨1, 1, 1⟩, .ok ⟨201, stringifyResponse normalized⟩⟩

end Proxy

namespace Worker

/-- MAX_RETRIES from worker/service.js: the total attempt cap of the
delivery loop. -/
def MAX_RETRIES : Nat := 3

/-- DELIVERY_TIMEOUT_MS from worker/service.js. -/
def DELIVERY_TIMEOUT_MS : Nat := 5000

/-- What one HTTP delivery attempt would do: resolve with a status, or
reject with an axios error. -/
inductive AttemptOutcome where
  | success (status : Nat)
  | failure (e : AxiosError)
deriving DecidableEq

/-- isRetryableError from worker/service.js: connection errors, HTTP 5xx and
HTTP 429 are retryable, everything else is terminal. -/
def isRetryableError (error : AxiosError) : Bool :=
  if error.code = some .ECONNREFUSED ∨ error.code = some .ETIMEDOUT ∨
      error.code = some .ECONNABORTED then true
  else
    match error.responseStatus with
    | some status => (500 ≤ status && status < 600) || status = 429
    | none => false

/-- Observable trace of one deliverWebhook call: number of HTTP calls made,
the backoff sleeps performed (milliseconds, in order), and whether the call
returned or threw (the thrown failure carries the last underlying error). -/
structure DeliveryTrace where
  httpCalls : Nat
  sleepsMs : List Nat
  result : Except AxiosError Unit

/-- The retry loop of deliverWebhook, from a given attempt number.
`outcomes n` is what the HTTP POST of attempt `n` would do; `fuel` counts
the remaining loop iterations (`MAX_RETRIES - attempt + 1`, so the base case
is never reached from `deliverWebhook`). The loop breaks, and the function
throws the last error, when the failure is not retryable or
`attempt === MAX_RETRIES`; otherwise it sleeps `2^attempt * 1000` ms and
retries. -/
def deliverFrom (outcomes : Nat → AttemptOutcome) : Nat → Nat → DeliveryTrace
  | _, 0 => ⟨0, [], .error ⟨none, none⟩⟩
  | attempt, fuel + 1 =>
    match outcomes attempt with
    | .success _ => ⟨1, [], .ok ()⟩
    | .failure e =>
      if isRetryableError e = false ∨ attempt = MAX_RETRIES then
        ⟨1, [], .error e⟩
      else
        let rest := deliverFrom outcomes (attempt + 1) fuel
        ⟨1 + rest.httpCalls, 2 ^ attempt * 1000 :: rest.sleepsMs, rest.result⟩

/-- deliverWebhook from worker/service.js, starting at attempt 1. -/
def deliverWebhook (outcomes : Nat → AttemptOutcome) : DeliveryTrace :=
  deliverFrom outcomes 1 MAX_RETRIES

/-- lookupCallbackUrl from worker/handlers/client-resolver.js: the shipped
stub always returns null. -/
def lookupCallbackUrl (_clientId _gateway : String) : Option String :=
  none

/-- Word characters of the JS regex `client_(\w+)`. -/
def isWordChar (c : Char) : Bool :=
  c.isAlphanum || c = Char.ofNat 95

/-- The JS `description.match(/client_(\w+)/)?.[1]` lookup: the word
characters following the first occurrence of `client_`, or null when the
pattern does not match. -/
def matchClientId (description : Option String) : Option String :=
  match description with
  | none => none
  | some s =>
    match s.splitOn "client_" with
    | _ :: rest :: _ =>
      let captured := rest.takeWhile isWordChar
      if captured = "" then none else some captured
    | _ => none

/-- extractClientIdFromPayload from worker/handlers/client-resolver.js. -/
def extractClientIdFromPayload (gateway : String)
    (payload : Webhooks.WebhookPayload) : Option String :=
  if gateway = "efi" then
    jsOrElse (payload.pix.bind (fun l => l.head?.bind (·.clientId)))
      payload.clientId
  else if gateway = "stripe" then
    jsOrElse (payload.data.bind (·.object) |>.bind (·.metadataClientId))
      (matchClientId (payload.data.bind (·.object) |>.bind (·.description)))
  else none

/-- getClientCallbackUrl from worker/handlers/client-resolver.js: extract a
client id (falsy id gives null), then look the URL up (falsy lookup result
gives null). -/
def getClientCallbackUrl (gateway : String)
    (payload : Webhooks.WebhookPayload) : Option String :=
  match extractClientIdFromPayload gateway payload with
  | none => none
  | some clientId =>
    if clientId = "" then none
    else
      match lookupCallbackUrl clientId gateway with
      | none => none
      | some url => if url = "" then none else some url

/-- The parsed queue message `{ gateway, payload, receivedAt }`. -/
structure WorkerMsg where
  gateway : String
  payload : Webhooks.WebhookPayload
  receivedAt : String
deriving DecidableEq

/-- The body of an SQS record: either JSON.parse throws, or it yields a
message. -/
inductive RecordBody where
  | malformed
  | parsed (m : WorkerMsg)
deriving DecidableEq

/-- One SQS record as the worker reads it. -/
structure SQSRecord where
  messageId : String
  body : RecordBody
deriving DecidableEq

/-- Result of one processWebhookRecord run: how many HTTP delivery calls
were made and whether the record resolved or threw. -/
structure WorkerRunResult where
  deliveryCalls : Nat
  outcome : Except JsError Unit

/-- processWebhookRecord from worker/service.js: parse the message,
normalize the webhook, resolve the callback URL — returning successfully
with no delivery attempt when it is null — and otherwise deliver with
retries, re-throwing a delivery failure. `deliveryOutcomes` is what each
HTTP delivery attempt would do; `nowIso` stands for
`new Date().toISOString()`. -/
def processWebhookRecord (record : SQSRecord)
    (deliveryOutcomes : Nat → AttemptOutcome) (nowIso : String) :
    WorkerRunResult :=
  match record.body with
  | .malformed => ⟨0, .error (.jsonError "Unexpected token in JSON")⟩
  | .parsed m =>
    match Webhooks.normalizeWebhookFromGateway m.gateway m.payload nowIso with
    | .error e => ⟨0, .error e⟩
    | .ok _normalizedData =>
      match getClientCallbackUrl m.gateway m.payload with
      | none => ⟨0, .ok ()⟩
      | some _url =>
        let d := deliverWebhook deliveryOutcomes
        match d.result with
        | .ok _ => ⟨d.httpCalls, .ok ()⟩
        | .error lastError => ⟨d.httpCalls, .error (.deliveryError lastError)⟩

/-- Observable trace of the worker Lambda batch handler: which records were
processed (in order) and the `batchItemFailures` item ids returned to
SQS. -/
structure BatchOutput where
  processedIds : List String
  batchItemFailures : List String
deriving DecidableEq

/-- The worker Lambda handler loop: process every record, catching each
record's error and collecting its messageId into batchItemFailures.
`process` is the per-record call to workerService.processWebhookRecord. -/
def workerHandler (process : SQSRecord → Except JsError Unit) :
    List SQSRecord → BatchOutput
  | [] => ⟨[], []⟩
  | record :: rest =>
    let tail := workerHandler process rest
    match process record with
    | .ok _ => ⟨record.messageId :: tail.processedIds, tail.batchItemFailures⟩
    | .error _ =>
      ⟨record.messageId :: tail.processedIds,
        record.messageId :: tail.batchItemFailures⟩

/-- Boolean failure test for one record's processing outcome, used to state
which records the batch handler reports back. -/
def failsProcessing (process : SQSRecord → Except JsError Unit)
    (record : SQSRecord) : Bool :=
  match process record with
  | .error _ => true
  | .ok _ => false

/-- Attempt outcomes of the spec scenario: HTTP 500 on attempts 1 and 2,
success on attempt 3. -/
def scenario500then200 : Nat → AttemptOutcome := fun attempt =>
  if attempt ≤ 2 then .failure ⟨none, some 500⟩ else .success 200

/-- Attempt outcomes of the spec scenario: HTTP 400 on every attempt. -/
def scenario400 : Nat → AttemptOutcome := fun _ =>
  .failure ⟨none, some 400⟩

end Worker

namespace Fixtures

/-- A payment payload passing validatePaymentRequest. -/
def validPayload : Proxy.PaymentPayload :=
  { amount := .num (mkRat 10 1), currency := .str "BRL", description := .str "pix test" }

/-- A fully valid proxy event for tenant `tenant-1`, gateway `efi`. -/
def validEvent : Proxy.ProxyEvent :=
  { headerIdemKeyLower := some "idem-1"
    authorizer := some ⟨some "tenant-1", some "efi"⟩
    body := .parsed (.object validPayload) }

/-- The same event with an empty payload object: headers, authorizer and
JSON body are all valid, but the payment payload fails validation (missing
amount). -/
def emptyPayloadEvent : Proxy.ProxyEvent :=
  { headerIdemKeyLower := some "idem-1"
    authorizer := some ⟨some "tenant-1", some "efi"⟩
    body := .parsed (.object {}) }

/-- A well-formed EFI payment-creation response. -/
def efiOkResponse : ResponseNorm.GatewayResponse :=
  { id := some "efi_tx_1", status := some "ATIVA"
    pix := some { qrcode := some "QRDATA", copiaecola := some "COPYPASTE" } }

/-- The normalized response the proxy builds from `efiOkResponse` with
orchestration id `orch-1` at time `NOW1`. -/
def normalized1 : ResponseNorm.NormalizedResponse :=
  { id := "orch-1", gateway := "efi", gateway_id := some "efi_tx_1"
    status := "pending", payment_type := "pix", created_at := .str "NOW1"
    data := .efi (some "QRDATA") (some "COPYPASTE") none }

/-- The HTTP response of the first (fresh) submission in the C1 witness. -/
def firstResponse : Proxy.HttpResponse :=
  ⟨201, Proxy.stringifyResponse normalized1⟩

/-- Some normalized response used to exercise the idempotency put. -/
def otherNormalized : ResponseNorm.NormalizedResponse :=
  { id := "orch-9", gateway := "efi", gateway_id := some "efi_tx_9"
    status := "pending", payment_type := "pix", created_at := .str "NOW9"
    data := .efi (some "QR9") (some "CP9") none }

/-- An EFI webhook message whose payload normalizes successfully. -/
def efiWebhookMsg : Worker.WorkerMsg :=
  { gateway := "efi"
    payload := { pix := some [{ txid := some "abc", valor := some (mkRat 1 1) }] }
    receivedAt := "2024-02-26T10:00:00Z" }

end Fixtures

namespace CircuitBreaker

theorem lookupMetrics_setMetrics_self (s : MetricsStore) (k : MetricsKey)
    (v : MetricsItem) : lookupMetrics (setMetrics s k v) k = some v := by
  induction s with
  | nil => simp [setMetrics, lookupMetrics]
  | cons hd tl ih =>
    obtain ⟨k2, v2⟩ := hd
    by_cases h : k2 = k <;> simp [setMetrics, lookupMetrics, h, ih]

theorem lookupMetrics_setMetrics_ne (s : MetricsStore) (k k2 : MetricsKey)
    (v : MetricsItem) (h : k2 ≠ k) :
    lookupMetrics (setMetrics s k v) k2 = lookupMetrics s k2 := by
  have h5 : ¬ k = k2 := fun hk => h hk.symm
  induction s with
  | nil => simp [setMetrics, lookupMetrics, h5]
  | cons hd tl ih =>
    obtain ⟨k3, v3⟩ := hd
    by_cases h3 : k3 = k
    · subst h3
      simp [setMetrics, lookupMetrics, h5]
    · by_cases h4 : k3 = k2 <;>
        simp [setMetrics, lookupMetrics, h3, h4, h, ih]

theorem failuresAt_recordFailure_self (s : MetricsStore) (g : String) (t : Nat) :
    failuresAt (recordFailure s g t).1
        (createMetricsKey g (calculateWindowKey t)) =
      failuresAt s (createMetricsKey g (calculateWindowKey t)) + 1 := by
  simp [recordFailure, incrementFailureCount, failuresAt,
    lookupMetrics_setMetrics_self]

theorem failuresAt_recordFailure_ne (s : MetricsStore) (g : String) (t w2 : Nat)
    (h : calculateWindowKey t ≠ w2) :
    failuresAt (recordFailure s g t).1 (createMetricsKey g w2) =
      failuresAt s (createMetricsKey g w2) := by
  have hk : createMetricsKey g w2 ≠ createMetricsKey g (calculateWindowKey t) := by
    simp [createMetricsKey]
    intro hw
    exact absurd hw.symm h
  simp [recordFailure, incrementFailureCount, failuresAt,
    lookupMetrics_setMetrics_ne _ _ _ _ hk]

theorem recordFailure_bool (s : MetricsStore) (g : String) (t : Nat) :
    (recordFailure s g t).2 =
      decide (FAILURE_THRESHOLD ≤
        failuresAt s (createMetricsKey g (calculateWindowKey t)) + 1) := by
  simp [recordFailure, getFailureCount, incrementFailureCount, failuresAt,
    lookupMetrics_setMetrics_self]

theorem runFailures_bools (g : String) (w : Nat) (ts : List Nat)
    (hw : ∀ t ∈ ts, calculateWindowKey t = w) (s : MetricsStore) :
    (runFailures s g ts).2 = (List.range ts.length).map
      (fun i => decide (FAILURE_THRESHOLD ≤
        failuresAt s (createMetricsKey g w) + i + 1)) := by
  induction ts generalizing s with
  | nil => simp [runFailures]
  | cons t ts ih =>
    have hwt : calculateWindowKey t = w := hw t (by simp)
    have hw2 : ∀ t2 ∈ ts, calculateWindowKey t2 = w :=
      fun t2 h2 => hw t2 (by simp [h2])
    have hb := recordFailure_bool s g t
    have hself := failuresAt_recordFailure_self s g t
    rw [hwt] at hb hself
    have htail := ih hw2 (recordFailure s g t).1
    rw [hself] at htail
    show (recordFailure s g t).2 :: (runFailures (recordFailure s g t).1 g ts).2 = _
    simp only [List.length_cons]
    rw [hb, htail, List.range_succ_eq_map, List.map_cons, List.map_map]
    simp only [List.cons.injEq]
    refine ⟨by trivial, ?_⟩
    · refine List.map_congr_left ?_
      intro i _
      simp only [Function.comp]
      rw [decide_eq_decide]
      omega

/-- Claim C2: with failures recorded sequentially for a provider, starting
from a current window holding no failures, the k-th recordFailure call in
that window returns true exactly when k reaches FAILURE_THRESHOLD = 5 —
so the threshold-reaching call returns true and every earlier call returns
false; the window id is floor(unix time / window length), and a failure
recorded under a different window id leaves the given window's counter
untouched, so expired-window failures contribute nothing. -/
theorem recordFailure_threshold_and_window_independence
    (g : String) (w : Nat) (s0 : MetricsStore) (ts : List Nat)
    (h0 : failuresAt s0 (createMetricsKey g w) = 0)
    (hw : ∀ t ∈ ts, calculateWindowKey t = w) :
    (runFailures s0 g ts).2 = (List.range ts.length).map
      (fun i => decide (FAILURE_THRESHOLD ≤ i + 1)) ∧
    FAILURE_THRESHOLD = 5 ∧
    (∀ t, calculateWindowKey t = t / MONITOR_WINDOW_SECONDS) ∧
    (∀ (s : MetricsStore) (t w2 : Nat), calculateWindowKey t ≠ w2 →
      failuresAt (recordFailure s g t).1 (createMetricsKey g w2) =
        failuresAt s (createMetricsKey g w2)) := by
  refine ⟨?_, rfl, fun t => rfl,
    fun s t w2 h => failuresAt_recordFailure_ne s g t w2 h⟩
  rw [runFailures_bools g w ts hw s0, h0]
  simp

/-- Witness for C2: five failures recorded for `efi` at times 300..304 (all
in window 1), starting from a store whose only counter is 99 failures in
the expired window 0, return false four times and then true on the fifth
call. -/
theorem recordFailure_threshold_witness :
    (runFailures [(createMetricsKey "efi" 0, ⟨99, 3600⟩)] "efi"
        [300, 301, 302, 303, 304]).2 = [false, false, false, false, true] := by
  rw [(recordFailure_threshold_and_window_independence "efi" 1
    [(createMetricsKey "efi" 0, ⟨99, 3600⟩)] [300, 301, 302, 303, 304]
    (by decide) (by decide)).1]
  rfl

end CircuitBreaker

/-- Claim C7: the PIX-style webhook normalizer maps the transaction record
with txid abc123, valor 99.99 and an horario timestamp to canonical status
completed, amount 99.99 and currency BRL, and the same record without
horario to status pending. -/
theorem efi_webhook_normalization_example :
    ((Webhooks.normalizeWebhookFromGateway "efi"
        { pix := some [⟨some "abc123", some (mkRat 9999 100),
            some "2024-02-26T10:30:00Z", none⟩] } "NOW").map
        (fun n => (n.status, n.amount, n.currency)))
      = .ok ("completed", some (mkRat 9999 100), "BRL") ∧
    ((Webhooks.normalizeWebhookFromGateway "efi"
        { pix := some [⟨some "abc123", some (mkRat 9999 100), none, none⟩] }
        "NOW").map (fun n => n.status)) = .ok "pending" := by
  constructor <;> rfl

/-- Claim C8: for a gateway id other than efi and stripe, both the response
normalizer and the webhook normalizer throw a ValidationError, returning no
normalized object. -/
theorem unknown_gateway_both_normalizers_reject (gateway : String)
    (response : ResponseNorm.GatewayResponse)
    (payload : Webhooks.WebhookPayload) (orchId nowIso nowIso2 : String)
    (h1 : gateway ≠ "efi") (h2 : gateway ≠ "stripe") :
    ResponseNorm.normalizeGatewayResponse gateway response orchId nowIso =
      .error (.validationError ("Unknown gateway: " ++ gateway)) ∧
    Webhooks.normalizeWebhookFromGateway gateway payload nowIso2 =
      .error (.validationError ("Unknown gateway: " ++ gateway)) := by
  unfold ResponseNorm.normalizeGatewayResponse
    Webhooks.normalizeWebhookFromGateway
  simp [h1, h2]

/-- Witness for C8 at the concrete unknown gateway id `paypal`. -/
theorem unknown_gateway_both_normalizers_reject_witness :
    ResponseNorm.normalizeGatewayResponse "paypal" {} "o" "n" =
      .error (.validationError ("Unknown gateway: " ++ "paypal")) ∧
    Webhooks.normalizeWebhookFromGateway "paypal" {} "n2" =
      .error (.validationError ("Unknown gateway: " ++ "paypal")) :=
  unknown_gateway_both_normalizers_reject "paypal" {} {} "o" "n" "n2"
    (by decide) (by decide)

namespace Proxy

theorem lookupIdem_putIdem_self (s : IdemStore) (k : IdemKey) (v : IdemItem) :
    lookupIdem (putIdem s k v) k = some v := by
  induction s with
  | nil => simp [putIdem, lookupIdem]
  | cons hd tl ih =>
    obtain ⟨k2, v2⟩ := hd
    by_cases h : k2 = k <;> simp [putIdem, lookupIdem, h, ih]

theorem stringifyResponse_ne_empty (r : ResponseNorm.NormalizedResponse) :
    stringifyResponse r ≠ "" := by
  intro h
  have hlen := congrArg String.length h
  have h7 : String.length "\x7b\"id\":\"" = 7 := by decide
  simp [stringifyResponse, String.length_append] at hlen
  omega

/-- Counterexample for C5: a store already holding a live record for
(t1, k1) with stored response CACHED-RESPONSE-A; performing the put for
(t1, k1) replaces the stored response with the new serialization, so the
existing record's response does not stay unchanged. -/
theorem saveIdempotencyRecord_overwrites_cex :
    ((lookupIdem
        (saveIdempotencyRecord
          [(createIdempotencyKey "t1" "k1", ⟨"CACHED-RESPONSE-A", 999999⟩)]
          "t1" "k1" Fixtures.otherNormalized 0)
        (createIdempotencyKey "t1" "k1")).map (fun item => item.response))
      = some (stringifyResponse Fixtures.otherNormalized) ∧
    stringifyResponse Fixtures.otherNormalized ≠ "CACHED-RESPONSE-A" := by
  constructor
  · rfl
  · decide

/-- Claim C5 as amended: saveIdempotencyRecord is an unconditional put with
no condition expression, so for every store state — including one already
holding a live record for (tenant, key) — the put replaces the record at
that key with the new serialized response and a fresh TTL: last writer
wins, not first writer wins. -/
theorem saveIdempotencyRecord_last_writer_wins (store : IdemStore)
    (tenantId idempotencyKey : String)
    (response : ResponseNorm.NormalizedResponse) (nowTs : Nat) :
    lookupIdem (saveIdempotencyRecord store tenantId idempotencyKey response nowTs)
        (createIdempotencyKey tenantId idempotencyKey)
      = some ⟨stringifyResponse response, nowTs + IDEMPOTENCY_TTL_SECONDS⟩ :=
  lookupIdem_putIdem_self store (createIdempotencyKey tenantId idempotencyKey) _

end Proxy

namespace Worker

/-- Claim C9: the worker batch handler processes every record of the batch
regardless of sibling failures — each record's id appears in the processed
trace — and returns as batchItemFailures exactly the ids of the records
whose processing threw, so succeeded items are not reported for
redelivery. -/
theorem workerHandler_per_item_isolation
    (process : SQSRecord → Except JsError Unit) (records : List SQSRecord) :
    (workerHandler process records).processedIds =
      records.map (fun r => r.messageId) ∧
    (workerHandler process records).batchItemFailures =
      (records.filter (failsProcessing process)).map (fun r => r.messageId) := by
  induction records with
  | nil => exact ⟨rfl, rfl⟩
  | cons r rest ih =>
    cases hp : process r with
    | ok u =>
      have hf : failsProcessing process r = false := by
        simp [failsProcessing, hp]
      simp [workerHandler, hp, hf, ih.1, ih.2]
    | error e =>
      have hf : failsProcessing process r = true := by
        simp [failsProcessing, hp]
      simp [workerHandler, hp, hf, ih.1, ih.2]

/-- Claim C3: a failed delivery attempt is retryable exactly when the error
is connection-refused, timeout, aborted, an HTTP 5xx response or HTTP 429;
every run makes one HTTP call plus one per backoff sleep, sleeps follow the
2^attempt-seconds schedule (2s then 4s) and at most MAX_RETRIES = 3 calls
are made; the 500/500/success scenario makes exactly 3 calls with sleeps
2s and 4s and succeeds; the 400 scenario stops after exactly 1 attempt; and
exhausting retryable failures throws a failure carrying the last underlying
error. -/
theorem deliverWebhook_retry_policy :
    (∀ e : AxiosError, isRetryableError e = true ↔
      (e.code = some .ECONNREFUSED ∨ e.code = some .ETIMEDOUT ∨
        e.code = some .ECONNABORTED ∨
        (∃ status, e.responseStatus = some status ∧
          ((500 ≤ status ∧ status < 600) ∨ status = 429)))) ∧
    MAX_RETRIES = 3 ∧
    (∀ outcomes : Nat → AttemptOutcome,
      (deliverWebhook outcomes).httpCalls =
        (deliverWebhook outcomes).sleepsMs.length + 1 ∧
      (deliverWebhook outcomes).sleepsMs <+: [2 ^ 1 * 1000, 2 ^ 2 * 1000] ∧
      (deliverWebhook outcomes).httpCalls ≤ MAX_RETRIES) ∧
    deliverWebhook scenario500then200 = ⟨3, [2000, 4000], .ok ()⟩ ∧
    deliverWebhook scenario400 = ⟨1, [], .error ⟨none, some 400⟩⟩ ∧
    (∀ e1 e2 e3 : AxiosError, isRetryableError e1 = true →
      isRetryableError e2 = true →
      deliverWebhook (fun attempt =>
          .failure (if attempt = 1 then e1 else if attempt = 2 then e2 else e3)) =
        ⟨3, [2000, 4000], .error e3⟩) := by
  refine ⟨?_, rfl, ?_, rfl, rfl, ?_⟩
  · intro e
    obtain ⟨c, s⟩ := e
    rcases c with _ | ec
    · rcases s with _ | st <;> simp [isRetryableError]
    · rcases ec with _ | _ | _ | s2 <;> rcases s with _ | st <;>
        simp [isRetryableError]
  · intro outcomes
    cases h1 : outcomes 1 with
    | success s1 =>
      have ht : deliverWebhook outcomes = ⟨1, [], .ok ()⟩ := by
        simp [deliverWebhook, deliverFrom, h1]
      rw [ht]
      exact ⟨rfl, ⟨_, rfl⟩, by simp [MAX_RETRIES]⟩
    | failure e1 =>
      by_cases hr1 : isRetryableError e1 = true
      · cases h2 : outcomes 2 with
        | success s2 =>
          have ht : deliverWebhook outcomes = ⟨2, [2000], .ok ()⟩ := by
            simp [deliverWebhook, deliverFrom, MAX_RETRIES, h1, hr1, h2]
          rw [ht]
          exact ⟨rfl, ⟨_, rfl⟩, by simp [MAX_RETRIES]⟩
        | failure e2 =>
          by_cases hr2 : isRetryableError e2 = true
          · cases h3 : outcomes 3 with
            | success s3 =>
              have ht : deliverWebhook outcomes = ⟨3, [2000, 4000], .ok ()⟩ := by
                simp [deliverWebhook, deliverFrom, MAX_RETRIES, h1, hr1, h2, hr2, h3]
              rw [ht]
              exact ⟨rfl, ⟨_, rfl⟩, by simp [MAX_RETRIES]⟩
            | failure e3 =>
              have ht : deliverWebhook outcomes = ⟨3, [2000, 4000], .error e3⟩ := by
                simp [deliverWebhook, deliverFrom, MAX_RETRIES, h1, hr1, h2, hr2, h3]
              rw [ht]
              exact ⟨rfl, ⟨_, rfl⟩, by simp [MAX_RETRIES]⟩
          · have ht : deliverWebhook outcomes = ⟨2, [2000], .error e2⟩ := by
              simp [deliverWebhook, deliverFrom, MAX_RETRIES, h1, hr1, h2, hr2]
            rw [ht]
            exact ⟨rfl, ⟨_, rfl⟩, by simp [MAX_RETRIES]⟩
      · have ht : deliverWebhook outcomes = ⟨1, [], .error e1⟩ := by
          simp [deliverWebhook, deliverFrom, MAX_RETRIES, h1, hr1]
        rw [ht]
        exact ⟨rfl, ⟨_, rfl⟩, by simp [MAX_RETRIES]⟩
  · intro e1 e2 e3 h1 h2
    simp [deliverWebhook, deliverFrom, MAX_RETRIES, h1, h2]

theorem getClientCallbackUrl_none (gateway : String)
    (payload : Webhooks.WebhookPayload) :
    getClientCallbackUrl gateway payload = none := by
  unfold getClientCallbackUrl
  cases extractClientIdFromPayload gateway payload with
  | none => rfl
  | some clientId => simp [lookupCallbackUrl]

/-- Claim C10: the shipped lookupCallbackUrl stub always returns null, so
the callback resolver never yields a URL; with a null URL,
processWebhookRecord returns successfully without attempting any delivery,
and the worker batch handler therefore reports the record as processed
(it is absent from batchItemFailures), permanently dropping the
notification instead of retrying it. -/
theorem null_callback_url_drops_notification (mid : String) (m : WorkerMsg)
    (outcomes : Nat → AttemptOutcome) (nowIso : String)
    (nw : Webhooks.NormalizedWebhook)
    (hn : Webhooks.normalizeWebhookFromGateway m.gateway m.payload nowIso = .ok nw) :
    (∀ clientId gateway, lookupCallbackUrl clientId gateway = none) ∧
    getClientCallbackUrl m.gateway m.payload = none ∧
    (processWebhookRecord ⟨mid, .parsed m⟩ outcomes nowIso).deliveryCalls = 0 ∧
    (processWebhookRecord ⟨mid, .parsed m⟩ outcomes nowIso).outcome = .ok () ∧
    (workerHandler (fun r => (processWebhookRecord r outcomes nowIso).outcome)
        [⟨mid, .parsed m⟩]).batchItemFailures = [] := by
  have hp : processWebhookRecord ⟨mid, .parsed m⟩ outcomes nowIso = ⟨0, .ok ()⟩ := by
    simp [processWebhookRecord, hn, getClientCallbackUrl_none]
  refine ⟨fun clientId gateway => rfl,
    getClientCallbackUrl_none m.gateway m.payload, ?_, ?_, ?_⟩
  · rw [hp]
  · rw [hp]
  · simp [workerHandler, hp]

/-- Witness for C10 at a concrete EFI notification: the record resolves
successfully and is not reported back for redelivery. -/
theorem null_callback_url_drops_notification_witness :
    (processWebhookRecord ⟨"mid-1", .parsed Fixtures.efiWebhookMsg⟩
        scenario400 "NOW").outcome = .ok () ∧
    (workerHandler
        (fun r => (processWebhookRecord r scenario400 "NOW").outcome)
        [⟨"mid-1", .parsed Fixtures.efiWebhookMsg⟩]).batchItemFailures = [] := by
  have h := null_callback_url_drops_notification "mid-1" Fixtures.efiWebhookMsg
    scenario400 "NOW" _ rfl
  exact ⟨h.2.2.2.1, h.2.2.2.2⟩

end Worker

namespace Proxy

/-- Counterexample for C6: a submission with valid headers, authorizer and
JSON body but an invalid payment payload (missing amount) is rejected only
after one idempotency-store read — refuting the claim that such a request
is rejected without any read from the idempotency store. -/
theorem invalid_payload_reads_store_cex :
    (processPayment ⟨[], []⟩ Fixtures.emptyPayloadEvent
        (.error (.gatewayError "unused")) "o" "n" 0).effects.storeReads = 1 ∧
    (processPayment ⟨[], []⟩ Fixtures.emptyPayloadEvent
        (.error (.gatewayError "unused")) "o" "n" 0).outcome =
      .error (.validationError "amount is required") := by
  constructor <;> rfl

/-- Claim C6 as amended: a submission failing header/authorizer/body-JSON
validation is rejected with no idempotency-store access and no provider
call; a submission whose payment payload fails validation (with no cached
record) is rejected after exactly the one idempotency-store read the code
performs first, still with no store write and no provider call; in both
cases the store state is exactly as before and the validation error is
surfaced. -/
theorem validation_failure_frame (st : ProxyState) (ev : ProxyEvent)
    (go : Except JsError ResponseNorm.GatewayResponse) (orchId nowIso : String)
    (nowTs : Nat) (e : JsError)
    (h : extractAndValidateInput ev = .error e ∨
      (∃ info, extractAndValidateInput ev = .ok info ∧
        checkIdempotency st.idem info.tenantId info.idempotencyKey = none ∧
        validatePaymentRequest info.payload = .error e)) :
    (processPayment st ev go orchId nowIso nowTs).state = st ∧
    (processPayment st ev go orchId nowIso nowTs).effects.storeWrites = 0 ∧
    (processPayment st ev go orchId nowIso nowTs).effects.providerCalls = 0 ∧
    (processPayment st ev go orchId nowIso nowTs).outcome = .error e ∧
    (extractAndValidateInput ev = .error e →
      (processPayment st ev go orchId nowIso nowTs).effects.storeReads = 0) := by
  rcases h with h | ⟨info, h1, h2, h3⟩
  · simp [processPayment, h]
  · have hr : processPayment st ev go orchId nowIso nowTs =
        ⟨st, ⟨1, 0, 0⟩, .error e⟩ := by
      simp [processPayment, h1, h2, h3]
    rw [hr]
    refine ⟨rfl, rfl, rfl, rfl, ?_⟩
    intro h4
    rw [h1] at h4
    simp at h4

/-- Witness for C6 (amended) at the concrete invalid-payload event. -/
theorem validation_failure_frame_witness :
    (processPayment ⟨[], []⟩ Fixtures.emptyPayloadEvent
        (.error (.gatewayError "unused")) "o" "n" 0).state =
      (⟨[], []⟩ : ProxyState) ∧
    (processPayment ⟨[], []⟩ Fixtures.emptyPayloadEvent
        (.error (.gatewayError "unused")) "o" "n" 0).effects.storeWrites = 0 ∧
    (processPayment ⟨[], []⟩ Fixtures.emptyPayloadEvent
        (.error (.gatewayError "unused")) "o" "n" 0).effects.providerCalls = 0 ∧
    (processPayment ⟨[], []⟩ Fixtures.emptyPayloadEvent
        (.error (.gatewayError "unused")) "o" "n" 0).outcome =
      .error (.validationError "amount is required") ∧
    (extractAndValidateInput Fixtures.emptyPayloadEvent =
        .error (.validationError "amount is required") →
      (processPayment ⟨[], []⟩ Fixtures.emptyPayloadEvent
          (.error (.gatewayError "unused")) "o" "n" 0).effects.storeReads = 0) :=
  validation_failure_frame ⟨[], []⟩ Fixtures.emptyPayloadEvent
    (.error (.gatewayError "unused")) "o" "n" 0
    (.validationError "amount is required")
    (Or.inr ⟨⟨"idem-1", "tenant-1", "efi", .object {}⟩, rfl, rfl, rfl⟩)

/-- Claim C4 (against the code): processPayment never touches the
circuit-breaker metrics store — no failure is ever recorded on a provider
error — and never makes more than one provider call per request, so there
is no fallback routing; concretely, a valid submission whose provider call
fails propagates the gateway error unchanged with the metrics store left
empty. -/
theorem processPayment_no_breaker_no_fallback :
    (∀ (st : ProxyState) (ev : ProxyEvent)
        (go : Except JsError ResponseNorm.GatewayResponse)
        (orchId nowIso : String) (nowTs : Nat),
      (processPayment st ev go orchId nowIso nowTs).state.metrics = st.metrics ∧
      (processPayment st ev go orchId nowIso nowTs).effects.providerCalls ≤ 1) ∧
    (processPayment ⟨[], []⟩ Fixtures.validEvent
        (.error (.gatewayError "Gateway returned status 500")) "o" "n" 0).outcome =
      .error (.gatewayError "Gateway returned status 500") ∧
    (processPayment ⟨[], []⟩ Fixtures.validEvent
        (.error (.gatewayError "Gateway returned status 500")) "o" "n" 0).state =
      (⟨[], []⟩ : ProxyState) := by
  refine ⟨?_, rfl, rfl⟩
  intro st ev go orchId nowIso nowTs
  unfold processPayment
  refine ⟨?_, ?_⟩ <;> (repeat' split) <;> simp

/-- Claim C1: two sequential submissions with the same tenant and
idempotency key (the second within the TTL, modelled by the record still
being live in the store): when the first submission succeeds, the second is
answered from the cached record with byte-identical body content, makes no
provider-adapter call, and across both submissions the adapter is invoked
at most once. -/
theorem processPayment_idempotent_replay (st : ProxyState) (ev : ProxyEvent)
    (go1 go2 : Except JsError ResponseNorm.GatewayResponse)
    (orchId1 nowIso1 orchId2 nowIso2 : String) (ts1 ts2 : Nat)
    (resp1 : HttpResponse)
    (h1 : (processPayment st ev go1 orchId1 nowIso1 ts1).outcome = .ok resp1) :
    (processPayment (processPayment st ev go1 orchId1 nowIso1 ts1).state
        ev go2 orchId2 nowIso2 ts2).outcome = .ok ⟨200, resp1.body⟩ ∧
    (processPayment (processPayment st ev go1 orchId1 nowIso1 ts1).state
        ev go2 orchId2 nowIso2 ts2).effects.providerCalls = 0 ∧
    (processPayment st ev go1 orchId1 nowIso1 ts1).effects.providerCalls +
      (processPayment (processPayment st ev go1 orchId1 nowIso1 ts1).state
        ev go2 orchId2 nowIso2 ts2).effects.providerCalls ≤ 1 := by
  obtain ⟨sc1, body1⟩ := resp1
  cases hex : extractAndValidateInput ev with
  | error e => simp [processPayment, hex] at h1
  | ok info =>
    cases hchk : checkIdempotency st.idem info.tenantId info.idempotencyKey with
    | some cached =>
      have hr1 : processPayment st ev go1 orchId1 nowIso1 ts1 =
          ⟨st, ⟨1, 0, 0⟩, .ok ⟨200, cached⟩⟩ := by
        simp [processPayment, hex, hchk]
      rw [hr1] at h1 ⊢
      simp only [Except.ok.injEq, HttpResponse.mk.injEq] at h1
      obtain ⟨h1a, h1b⟩ := h1
      subst h1b
      simp [processPayment, hex, hchk]
    | none =>
      cases hval : validatePaymentRequest info.payload with
      | error e => simp [processPayment, hex, hchk, hval] at h1
      | ok u =>
        cases go1 with
        | error e => simp [processPayment, hex, hchk, hval] at h1
        | ok gwResp =>
          cases hn : ResponseNorm.normalizeGatewayResponse info.gateway
              gwResp orchId1 nowIso1 with
          | error e => simp [processPayment, hex, hchk, hval, hn] at h1
          | ok normalized =>
            have hr1 : processPayment st ev (.ok gwResp) orchId1 nowIso1 ts1 =
                ⟨⟨saveIdempotencyRecord st.idem info.tenantId info.idempotencyKey
                    normalized ts1, st.metrics⟩,
                  ⟨1, 1, 1⟩, .ok ⟨201, stringifyResponse normalized⟩⟩ := by
              simp [processPayment, hex, hchk, hval, hn]
            have hchk2 : checkIdempotency
                (saveIdempotencyRecord st.idem info.tenantId info.idempotencyKey
                  normalized ts1) info.tenantId info.idempotencyKey =
                some (stringifyResponse normalized) := by
              unfold checkIdempotency saveIdempotencyRecord
              rw [lookupIdem_putIdem_self]
              simp [stringifyResponse_ne_empty normalized]
            rw [hr1] at h1 ⊢
            simp only [Except.ok.injEq, HttpResponse.mk.injEq] at h1
            obtain ⟨h1a, h1b⟩ := h1
            subst h1b
            simp [processPayment, hex, hchk2]

end Proxy

/-- Witness for C1 at a concrete first submission (fresh key, EFI success)
replayed with the provider down: the replay is served from the cache with
the same body and no provider call. -/
theorem processPayment_idempotent_replay_witness :
    (Proxy.processPayment (Proxy.processPayment ⟨[], []⟩ Fixtures.validEvent
        (.ok Fixtures.efiOkResponse) "orch-1" "NOW1" 100).state
      Fixtures.validEvent (.error (.gatewayError "provider down"))
      "orch-2" "NOW2" 200).outcome = .ok ⟨200, Fixtures.firstResponse.body⟩ ∧
    (Proxy.processPayment (Proxy.processPayment ⟨[], []⟩ Fixtures.validEvent
        (.ok Fixtures.efiOkResponse) "orch-1" "NOW1" 100).state
      Fixtures.validEvent (.error (.gatewayError "provider down"))
      "orch-2" "NOW2" 200).effects.providerCalls = 0 ∧
    (Proxy.processPayment ⟨[], []⟩ Fixtures.validEvent
        (.ok Fixtures.efiOkResponse) "orch-1" "NOW1" 100).effects.providerCalls +
      (Proxy.processPayment (Proxy.processPayment ⟨[], []⟩ Fixtures.validEvent
          (.ok Fixtures.efiOkResponse) "orch-1" "NOW1" 100).state
        Fixtures.validEvent (.error (.gatewayError "provider down"))
        "orch-2" "NOW2" 200).effects.providerCalls ≤ 1 :=
  Proxy.processPayment_idempotent_replay ⟨[], []⟩ Fixtures.validEvent
    (.ok Fixtures.efiOkResponse) (.error (.gatewayError "provider down"))
    "orch-1" "NOW1" "orch-2" "NOW2" 100 200 Fixtures.firstResponse (by rfl)
